import Mathlib

/-!
Verification of the reminder workflow of the subscription-management API.

The development shallowly embeds:
* `controllers/workflow.controller.js` (the `sendReminders` Upstash workflow),
* `utils/send-email.js` (`sendReminderEmail`),
* the `pre("save")` hook of `models/subscription.model.js`.

Time is modeled as an integer count of milliseconds; `dayjs` calendar-day
comparison (`isSame(d, "day")`) is floor division by the length of a day.
The Upstash durable-execution host memoizes each named step: a completed
step is replayed from the run's step log without re-running its side
effect.  The step log is threaded explicitly (`StepRec`), observable side
effects are collected in an `Event` trace, and a suspension
(`context.sleepUntil`) of a continuously executing run resumes exactly at
the wake-up instant.
-/

namespace SubTracker

/-- Milliseconds in one calendar day (the unit `dayjs` uses internally). -/
def msPerDay : Int := 86400000

/-- Calendar-day index of an instant: floor division by `msPerDay`.
Two instants are the same `dayjs` calendar day iff their `dayOf` agree. -/
def dayOf (t : Int) : Int := t / msPerDay

/-- The `status` enum of the subscription schema. -/
inductive SubStatus
  | active
  | cancelled
  | expired
deriving DecidableEq, Repr

/-- The `frequency` enum of the subscription schema. -/
inductive Frequency
  | daily
  | weekly
  | monthly
  | yearly
deriving DecidableEq, Repr

/-- The `renewalPeriods` table of the `pre("save")` hook, in days. -/
def renewalPeriods : Frequency → Int
  | .daily => 1
  | .weekly => 7
  | .monthly => 30
  | .yearly => 365

/-- The owning user's fields resolved by `populate("user", "name email")`. -/
structure UserInfo where
  name : String
  email : String
deriving DecidableEq, Repr

/-- The subscription snapshot as the workflow sees it after the fetch step:
`renewalDate` present, the `user` reference resolved. -/
structure Subscription where
  name : String
  status : SubStatus
  renewalDate : Int
  user : UserInfo
deriving DecidableEq, Repr

/-- A persisted subscription document as the `pre("save")` hook sees it:
`renewalDate` may still be unset. -/
structure SubscriptionDoc where
  frequency : Frequency
  status : SubStatus
  startDate : Int
  renewalDate : Option Int
deriving DecidableEq, Repr

/-- Embedding of `subscriptionSchema.pre("save")`: if `renewalDate` is unset
it becomes `startDate` plus the frequency's period in days; afterwards, if
the (possibly just computed) `renewalDate` lies before `now`, the status is
forced to `expired`. -/
def preSave (doc : SubscriptionDoc) (now : Int) : SubscriptionDoc :=
  let rd : Int :=
    match doc.renewalDate with
    | none => doc.startDate + renewalPeriods doc.frequency * msPerDay
    | some r => r
  let st := if rd < now then SubStatus.expired else doc.status
  { doc with renewalDate := some rd, status := st }

/-- A mail handed to the transporter: recipient and the template label used. -/
structure Dispatch where
  toAddr : String
  typeLabel : String
deriving DecidableEq, Repr

/-- The errors `sendReminderEmail` can throw. -/
inductive MailError
  | missingFields
  | invalidTemplate
  | deliveryFailed
deriving DecidableEq, Repr

/-- JS truthiness of an optional string argument: absent or `""` is falsy. -/
def truthyB : Option String → Bool
  | none => false
  | some s => !(s == "")

/-- Embedding of `sendReminderEmail` (`utils/send-email.js`).  The template
list lives in `utils/email-template.js`, which is not among the sources, so
the function is parametrized by the list of template labels; the body
rendering (`generateBody`/`generateSubject`) affects no observable modeled
here.  Transporter success is an input `deliverOk`; the function returns
the mails handed to the transporter together with the error thrown, if any.
(The source also passes the resolved send-info to a second callback-style
`transporter.sendMail` call; that call receives a result object, not a
user-addressed message, and is not a reminder dispatch.) -/
def sendReminderEmail (templates : List String) (deliverOk : Bool)
    (toA ty : Option String) (subscription : Option Subscription) :
    List Dispatch × Option MailError :=
  if truthyB toA = false || truthyB ty = false || subscription.isNone then
    ([], some .missingFields)
  else
    match templates.find? (fun l => l == ty.getD "") with
    | none => ([], some .invalidTemplate)
    | some l =>
      if deliverOk then ([⟨toA.getD "", l⟩], none)
      else ([⟨toA.getD "", l⟩], some .deliveryFailed)

/-- A completed, durably recorded workflow step, keyed by its name:
the memoized fetch (`context.run "get subscription"`, with its recorded
result), a finished `context.sleepUntil`, or a completed reminder send
(`context.run` of a threshold's label). -/
inductive StepRec
  | fetch (result : Option Subscription)
  | slept (label : String)
  | sent (label : String)
deriving DecidableEq, Repr

/-- Observable events of a run: persistence-store accesses, durable
suspensions, and mails handed to the transporter (`ok` is delivery
success). -/
inductive Event
  | read (subId : String) (time : Int)
  | write (subId : String) (time : Int)
  | sleep (label : String) (wake : Int)
  | email (label : String) (toAddr : String) (time : Int) (ok : Bool)
deriving DecidableEq, Repr

/-- The running state of one workflow run: the current instant, the durable
step log, and the events observed so far. -/
structure RunState where
  now : Int
  log : List StepRec
  events : List Event
deriving Repr

/-- The `context.run` name used by `sleepUntilReminder` for threshold `d`:
`Reminder ${daysBefore} days before`. -/
def sleepLabel (d : Nat) : String := "Reminder " ++ toString d ++ " days before"

/-- The step name and email type label used by `triggerReminder` for
threshold `d`: `${daysBefore} days before reminder`. -/
def runLabel (d : Nat) : String := toString d ++ " days before reminder"

/-- Embedding of `sleepUntilReminder`: `context.sleepUntil(label, date)`.
A sleep step already in the durable log is replayed without suspending
again; otherwise the run suspends and — executing continuously — resumes
exactly at the wake instant, recording the completed step. -/
def sleepUntilReminder (d : Nat) (reminderDate : Int) (s : RunState) : RunState :=
  if StepRec.slept (sleepLabel d) ∈ s.log then s
  else
    { now := reminderDate
      log := s.log ++ [.slept (sleepLabel d)]
      events := s.events ++ [.sleep (sleepLabel d) reminderDate] }

/-- Embedding of `triggerReminder`: `context.run(label, () =>
sendReminderEmail({to, type: label, subscription}))`.  A send step already
in the log is replayed without re-sending.  Otherwise the mail is sent; on
a thrown error the step fails (`false`): the workflow was triggered with
`retries: 0`, so the failed step is not retried and the run is failed. -/
def triggerReminder (templates : List String) (mailOk : String → Bool)
    (sub : Subscription) (d : Nat) (s1 : RunState) : RunState × Bool :=
  if StepRec.sent (runLabel d) ∈ s1.log then (s1, true)
  else
    let pr := sendReminderEmail templates (mailOk (runLabel d))
      (some sub.user.email) (some (runLabel d)) (some sub)
    if pr.2 = none then
      ({ s1 with
          log := s1.log ++ [.sent (runLabel d)]
          events := s1.events ++
            pr.1.map (fun dp => .email dp.typeLabel dp.toAddr s1.now true) },
        true)
    else
      ({ s1 with
          events := s1.events ++
            pr.1.map (fun dp => .email dp.typeLabel dp.toAddr s1.now false) },
        false)

/-- One iteration of the `for (const daysBefore of reminders)` loop of
`sendReminders`, for threshold `d`.

* `reminderDate.isAfter(dayjs())` (strict) guards the durable suspension;
* `dayjs().isSame(reminderDate, "day")` (calendar day) guards the send. -/
def stepThreshold (templates : List String) (mailOk : String → Bool)
    (sub : Subscription) (renewal : Int) (d : Nat) (s : RunState) :
    RunState × Bool :=
  let reminderDate := renewal - (d : Int) * msPerDay
  let s1 := if s.now < reminderDate then sleepUntilReminder d reminderDate s else s
  if dayOf s1.now = dayOf reminderDate then
    triggerReminder templates mailOk sub d s1
  else (s1, true)

/-- The reminder loop over the remaining thresholds; a failed step aborts
the run (zero retries). -/
def runLoop (templates : List String) (mailOk : String → Bool)
    (sub : Subscription) (renewal : Int) :
    List Nat → RunState → RunState × Bool
  | [], s => (s, true)
  | d :: ds, s =>
    let r1 := stepThreshold templates mailOk sub renewal d s
    if r1.2 = true then runLoop templates mailOk sub renewal ds r1.1
    else (r1.1, false)

/-- `const reminders = [7, 5, 3, 1]`. -/
def reminders : List Nat := [7, 5, 3, 1]

/-- The recorded result of the memoized `"get subscription"` step, when that
step has completed. -/
def getFetched (log : List StepRec) : Option (Option Subscription) :=
  log.findSome? (fun r => match r with | .fetch v => some v | _ => none)

/-- The subscription snapshot the run works with: the recorded fetch result
when the fetch step is in the log, otherwise the store contents at the
current instant. -/
def fetchedSub (db : Int → Option Subscription) (t0 : Int)
    (log0 : List StepRec) : Option Subscription :=
  match getFetched log0 with
  | some v => v
  | none => db t0

/-- The run state right after the `"get subscription"` step of an
invocation starting at `t0` with durable log `log0`: if the fetch step is
already in the log it is replayed (no store access); otherwise the store is
read once, at `t0`, and the completed fetch step is recorded. -/
def startState (db : Int → Option Subscription) (subId : String)
    (t0 : Int) (log0 : List StepRec) : RunState :=
  match getFetched log0 with
  | some _ => { now := t0, log := log0, events := [] }
  | none =>
    { now := t0
      log := log0 ++ [.fetch (db t0)]
      events := [.read subId t0] }

/-- Embedding of the `sendReminders` workflow (`serve(async (context) => …)`).
`db` is the persistence store as a function of time (`Subscription.findById`
with `populate("user", "name email")`), `t0` the instant this invocation
starts, `log0` the durable step log carried into it.  Returns the final
state and `true` for a successful completion, `false` for a failed run.

* `context.run "get subscription"` is memoized: replayed from the log when
  completed, otherwise it reads the store once, at `t0`.
* `if (!subscription || subscription.status !== "active") return;`
* `if (renewalDate.isBefore(dayjs())) return;` (strict, at `t0`)
* then the threshold loop runs. -/
def sendReminders (db : Int → Option Subscription) (subId : String)
    (templates : List String) (mailOk : String → Bool)
    (t0 : Int) (log0 : List StepRec) : RunState × Bool :=
  match fetchedSub db t0 log0 with
  | none => (startState db subId t0 log0, true)
  | some sub =>
    if sub.status ≠ SubStatus.active then (startState db subId t0 log0, true)
    else if sub.renewalDate < t0 then (startState db subId t0 log0, true)
    else runLoop templates mailOk sub sub.renewalDate reminders
      (startState db subId t0 log0)

/-- Is this event a mail handed to the transporter? -/
def isEmailEv : Event → Bool
  | .email _ _ _ _ => true
  | _ => false

/-- Is this event a persistence-store access? -/
def isStoreEv : Event → Bool
  | .read _ _ => true
  | .write _ _ => true
  | _ => false

/-- Is this event a durable suspension? -/
def isSleepEv : Event → Bool
  | .sleep _ _ => true
  | _ => false

/-- The mail events of a trace. -/
def emailEvents (evs : List Event) : List Event := evs.filter isEmailEv

/-- The persistence-store accesses of a trace. -/
def storeEvents (evs : List Event) : List Event := evs.filter isStoreEv

/-- The suspensions of a trace. -/
def sleepEvents (evs : List Event) : List Event := evs.filter isSleepEv

/-- How many mail events of the trace carry the type label `L`. -/
def countLabel (L : String) (evs : List Event) : Nat :=
  (evs.filter (fun e => match e with | .email l _ _ _ => l == L | _ => false)).length

/-- Modelled from the spec: the labels of `emailTemplates` in
`utils/email-template.js`, a file not among the provided sources.  The
spec's end-to-end scenario asserts emails labeled `"7 days before
reminder"`, `"5 days before reminder"`, `"3 days before reminder"` and
`"1 days before reminder"`, so the template list resolves exactly the
labels the workflow passes. -/
def defaultTemplates : List String :=
  ["7 days before reminder", "5 days before reminder",
   "3 days before reminder", "1 days before reminder"]

/-- A well-formed active subscription renewing at day 10, used to
instantiate the theorems at concrete inputs. -/
def sampleSub : Subscription :=
  { name := "Netflix"
    status := SubStatus.active
    renewalDate := 10 * msPerDay
    user := { name := "u", email := "u@x.com" } }

/-- An active subscription whose renewal instant is already past at `0`. -/
def expiredSub : Subscription :=
  { sampleSub with renewalDate := -1 }

/-- The same subscription after an external cancellation. -/
def sampleCancelled : Subscription :=
  { sampleSub with status := SubStatus.cancelled }

/-- A store whose subscription is active at and before instant `0` and is
cancelled externally right afterwards, while a run started at `0` is
suspended. -/
def cancelledMidRunStore : Int → Option Subscription := fun t =>
  if t ≤ 0 then some sampleSub else some sampleCancelled

/-! ## Basic lemmas -/

lemma dayOf_sub_days (t : Int) (n : Nat) :
    dayOf (t - n * msPerDay) = dayOf t - n := by
  unfold dayOf msPerDay
  omega

lemma dayOf_mono {a b : Int} (h : a ≤ b) : dayOf a ≤ dayOf b := by
  unfold dayOf msPerDay
  omega

lemma find?_beq_self_of_mem {L : String} {templates : List String}
    (h : L ∈ templates) :
    ∃ w, templates.find? (fun l => l == L) = some w ∧ w = L := by
  induction templates with
  | nil => cases h
  | cons a as ih =>
    by_cases ha : a = L
    · exact ⟨a, by simp [List.find?, ha], ha⟩
    · have hmem : L ∈ as := by
        rcases List.mem_cons.mp h with h' | h'
        · exact absurd h'.symm ha
        · exact h'
      rcases ih hmem with ⟨w, hw, hwL⟩
      refine ⟨w, ?_, hwL⟩
      rw [List.find?_cons_of_neg]
      · exact hw
      · simp [ha]

lemma sendReminderEmail_disp_label (templates : List String) (deliverOk : Bool)
    (toA ty : Option String) (subscription : Option Subscription) :
    ∀ dp ∈ (sendReminderEmail templates deliverOk toA ty subscription).1,
      dp.typeLabel = ty.getD "" := by
  intro dp hdp
  unfold sendReminderEmail at hdp
  split at hdp
  · simp at hdp
  · rcases hf : templates.find? (fun l => l == ty.getD "") with _ | l
    · rw [hf] at hdp; simp at hdp
    · rw [hf] at hdp
      have hl : l = ty.getD "" := by
        have := List.find?_some hf
        simpa using this
      rcases deliverOk with _ | _ <;> simp at hdp <;> simp [hdp, hl]

lemma sendReminderEmail_disp_len (templates : List String) (deliverOk : Bool)
    (toA ty : Option String) (subscription : Option Subscription) :
    (sendReminderEmail templates deliverOk toA ty subscription).1.length ≤ 1 := by
  unfold sendReminderEmail
  split
  · simp
  · rcases hf : templates.find? (fun l => l == ty.getD "") with _ | l
    · simp [hf]
    · rcases deliverOk with _ | _ <;> simp [hf]

lemma sendReminderEmail_ok (templates : List String)
    (e L : String) (sub : Subscription)
    (he : e ≠ "") (hL : L ∈ templates) (hLne : L ≠ "") :
    sendReminderEmail templates true (some e) (some L) (some sub) =
      ([⟨e, L⟩], none) := by
  rcases find?_beq_self_of_mem hL with ⟨w, hw, hwL⟩
  unfold sendReminderEmail
  simp [truthyB, he, hLne, hw, hwL]

lemma sendReminderEmail_fail (templates : List String)
    (e L : String) (sub : Subscription)
    (he : e ≠ "") (hL : L ∈ templates) (hLne : L ≠ "") :
    sendReminderEmail templates false (some e) (some L) (some sub) =
      ([⟨e, L⟩], some .deliveryFailed) := by
  rcases find?_beq_self_of_mem hL with ⟨w, hw, hwL⟩
  unfold sendReminderEmail
  simp [truthyB, he, hLne, hw, hwL]

lemma countLabel_append (L : String) (a b : List Event) :
    countLabel L (a ++ b) = countLabel L a + countLabel L b := by
  simp [countLabel, List.filter_append]

lemma countLabel_nil (L : String) : countLabel L [] = 0 := rfl

lemma storeEvents_append (a b : List Event) :
    storeEvents (a ++ b) = storeEvents a ++ storeEvents b := by
  simp [storeEvents, List.filter_append]

lemma emailEvents_append (a b : List Event) :
    emailEvents (a ++ b) = emailEvents a ++ emailEvents b := by
  simp [emailEvents, List.filter_append]

lemma sleepEvents_append (a b : List Event) :
    sleepEvents (a ++ b) = sleepEvents a ++ sleepEvents b := by
  simp [sleepEvents, List.filter_append]

lemma countLabel_of_emailEvents_nil {evs : List Event} (L : String)
    (h : emailEvents evs = []) : countLabel L evs = 0 := by
  induction evs with
  | nil => rfl
  | cons e t ih =>
    cases e with
    | email l a tm ok =>
      exact absurd h (by simp [emailEvents, isEmailEv])
    | read i tm =>
      have ht : emailEvents t = [] := by simpa [emailEvents, isEmailEv] using h
      simpa [countLabel] using ih ht
    | write i tm =>
      have ht : emailEvents t = [] := by simpa [emailEvents, isEmailEv] using h
      simpa [countLabel] using ih ht
    | sleep l w =>
      have ht : emailEvents t = [] := by simpa [emailEvents, isEmailEv] using h
      simpa [countLabel] using ih ht

lemma storeEvents_map_email (l : List Dispatch) (t : Int) (ok : Bool) :
    storeEvents (l.map (fun dp => Event.email dp.typeLabel dp.toAddr t ok)) = [] := by
  induction l with
  | nil => rfl
  | cons a as ih => simp only [List.map_cons, storeEvents, List.filter_cons, isStoreEv]; exact ih

lemma countLabel_map_email_ne (l : List Dispatch) (t : Int) (ok : Bool) (L : String)
    (h : ∀ dp ∈ l, dp.typeLabel ≠ L) :
    countLabel L (l.map (fun dp => Event.email dp.typeLabel dp.toAddr t ok)) = 0 := by
  induction l with
  | nil => rfl
  | cons a as ih =>
    have ha : (a.typeLabel == L) = false := by
      simpa using h a (List.mem_cons_self a as)
    have ht := ih (fun dp hdp => h dp (List.mem_cons_of_mem a hdp))
    simpa [countLabel, ha] using ht

lemma countLabel_map_email_le (l : List Dispatch) (t : Int) (ok : Bool) (L : String) :
    countLabel L (l.map (fun dp => Event.email dp.typeLabel dp.toAddr t ok)) ≤ l.length := by
  induction l with
  | nil => simp [countLabel]
  | cons a as ih =>
    rcases hb : (a.typeLabel == L) with _ | _
    · simpa [countLabel, hb] using Nat.le_succ_of_le ih
    · simpa [countLabel, hb] using Nat.succ_le_succ ih

/-! ## Step-level invariants -/

lemma sleepUntilReminder_log_mono (d : Nat) (r : Int) (s : RunState) {x : StepRec}
    (h : x ∈ s.log) : x ∈ (sleepUntilReminder d r s).log := by
  unfold sleepUntilReminder
  split
  · exact h
  · simp [h]

lemma sleepUntilReminder_events (d : Nat) (r : Int) (s : RunState) :
    ∃ evs, (sleepUntilReminder d r s).events = s.events ++ evs ∧
      emailEvents evs = [] ∧ storeEvents evs = [] := by
  unfold sleepUntilReminder
  split
  · exact ⟨[], by simp, rfl, rfl⟩
  · exact ⟨[.sleep (sleepLabel d) r], rfl, rfl, rfl⟩

lemma triggerReminder_log_mono (templates : List String) (mailOk : String → Bool)
    (sub : Subscription) (d : Nat) (s1 : RunState) {x : StepRec}
    (h : x ∈ s1.log) :
    x ∈ (triggerReminder templates mailOk sub d s1).1.log := by
  unfold triggerReminder
  split
  · exact h
  · dsimp only
    split
    · simp [h]
    · exact h

lemma triggerReminder_events (templates : List String) (mailOk : String → Bool)
    (sub : Subscription) (d : Nat) (s1 : RunState) :
    ∃ evs, (triggerReminder templates mailOk sub d s1).1.events = s1.events ++ evs ∧
      storeEvents evs = [] ∧
      (∀ L, runLabel d ≠ L → countLabel L evs = 0) ∧
      countLabel (runLabel d) evs ≤ 1 ∧
      (StepRec.sent (runLabel d) ∈ s1.log → evs = []) := by
  unfold triggerReminder
  split
  · exact ⟨[], by simp, rfl, fun L _ => rfl, by simp [countLabel], fun _ => rfl⟩
  · rename_i hmem
    have hlab := sendReminderEmail_disp_label templates (mailOk (runLabel d))
      (some sub.user.email) (some (runLabel d)) (some sub)
    have hlen := sendReminderEmail_disp_len templates (mailOk (runLabel d))
      (some sub.user.email) (some (runLabel d)) (some sub)
    dsimp only
    split
    · refine ⟨_, rfl, storeEvents_map_email _ _ _, ?_, ?_, fun h => absurd h hmem⟩
      · intro L hL
        refine countLabel_map_email_ne _ _ _ _ (fun dp hdp => ?_)
        rw [hlab dp hdp]
        simpa using hL
      · exact le_trans (countLabel_map_email_le _ _ _ _) hlen
    · refine ⟨_, rfl, storeEvents_map_email _ _ _, ?_, ?_, fun h => absurd h hmem⟩
      · intro L hL
        refine countLabel_map_email_ne _ _ _ _ (fun dp hdp => ?_)
        rw [hlab dp hdp]
        simpa using hL
      · exact le_trans (countLabel_map_email_le _ _ _ _) hlen

lemma stepThreshold_log_mono (templates : List String) (mailOk : String → Bool)
    (sub : Subscription) (renewal : Int) (d : Nat) (s : RunState) {x : StepRec}
    (h : x ∈ s.log) :
    x ∈ (stepThreshold templates mailOk sub renewal d s).1.log := by
  unfold stepThreshold
  by_cases h1 : s.now < renewal - (d : Int) * msPerDay
  · simp only [if_pos h1]
    have h2 := sleepUntilReminder_log_mono d (renewal - (d : Int) * msPerDay) s h
    split
    · exact triggerReminder_log_mono _ _ _ _ _ h2
    · exact h2
  · simp only [if_neg h1]
    split
    · exact triggerReminder_log_mono _ _ _ _ _ h
    · exact h

lemma stepThreshold_shape (templates : List String) (mailOk : String → Bool)
    (sub : Subscription) (renewal : Int) (d : Nat) (s : RunState) :
    ∃ evs, (stepThreshold templates mailOk sub renewal d s).1.events = s.events ++ evs ∧
      storeEvents evs = [] ∧
      (∀ L, runLabel d ≠ L → countLabel L evs = 0) ∧
      countLabel (runLabel d) evs ≤ 1 ∧
      (StepRec.sent (runLabel d) ∈ s.log → countLabel (runLabel d) evs = 0) := by
  unfold stepThreshold
  by_cases h1 : s.now < renewal - (d : Int) * msPerDay
  · simp only [if_pos h1]
    rcases sleepUntilReminder_events d (renewal - (d : Int) * msPerDay) s with
      ⟨evs0, he0, hem0, hst0⟩
    have hlog0 : StepRec.sent (runLabel d) ∈ s.log →
        StepRec.sent (runLabel d) ∈ (sleepUntilReminder d (renewal - (d : Int) * msPerDay) s).log :=
      fun h => sleepUntilReminder_log_mono _ _ _ h
    split
    · rcases triggerReminder_events templates mailOk sub d
        (sleepUntilReminder d (renewal - (d : Int) * msPerDay) s) with
        ⟨evs1, he1, hst1, hne1, hle1, hsent1⟩
      refine ⟨evs0 ++ evs1, by rw [he1, he0, List.append_assoc], ?_, ?_, ?_, ?_⟩
      · rw [storeEvents_append, hst0, hst1]; rfl
      · intro L hL
        rw [countLabel_append, countLabel_of_emailEvents_nil L hem0, hne1 L hL]
      · rw [countLabel_append, countLabel_of_emailEvents_nil _ hem0]
        simpa using hle1
      · intro hs
        rw [countLabel_append, countLabel_of_emailEvents_nil _ hem0,
          hsent1 (hlog0 hs)]
        rfl
    · refine ⟨evs0, he0, hst0, ?_, ?_, ?_⟩
      · intro L _; exact countLabel_of_emailEvents_nil L hem0
      · rw [countLabel_of_emailEvents_nil _ hem0]; omega
      · intro _; exact countLabel_of_emailEvents_nil _ hem0
  · simp only [if_neg h1]
    split
    · rcases triggerReminder_events templates mailOk sub d s with
        ⟨evs1, he1, hst1, hne1, hle1, hsent1⟩
      refine ⟨evs1, he1, hst1, hne1, hle1, ?_⟩
      intro hs
      rw [hsent1 hs]
      rfl
    · exact ⟨[], by simp, rfl, fun L _ => rfl, by simp [countLabel], fun _ => rfl⟩

/-! ## Loop-level invariants -/

lemma runLoop_log_mono (templates : List String) (mailOk : String → Bool)
    (sub : Subscription) (renewal : Int) (ds : List Nat) (s : RunState) {x : StepRec}
    (h : x ∈ s.log) :
    x ∈ (runLoop templates mailOk sub renewal ds s).1.log := by
  induction ds generalizing s with
  | nil => exact h
  | cons d ds ih =>
    simp only [runLoop]
    have hstep := stepThreshold_log_mono templates mailOk sub renewal d s h
    split
    · exact ih _ hstep
    · exact hstep

lemma runLoop_store (templates : List String) (mailOk : String → Bool)
    (sub : Subscription) (renewal : Int) (ds : List Nat) (s : RunState) :
    storeEvents (runLoop templates mailOk sub renewal ds s).1.events =
      storeEvents s.events := by
  induction ds generalizing s with
  | nil => rfl
  | cons d ds ih =>
    simp only [runLoop]
    rcases stepThreshold_shape templates mailOk sub renewal d s with
      ⟨evs, he, hst, _, _, _⟩
    have hs : storeEvents (stepThreshold templates mailOk sub renewal d s).1.events =
        storeEvents s.events := by
      rw [he, storeEvents_append, hst, List.append_nil]
    split
    · rw [ih _, hs]
    · exact hs

lemma runLoop_count_notin (templates : List String) (mailOk : String → Bool)
    (sub : Subscription) (renewal : Int) (ds : List Nat) (s : RunState) (L : String)
    (h : ∀ d ∈ ds, runLabel d ≠ L) :
    countLabel L (runLoop templates mailOk sub renewal ds s).1.events =
      countLabel L s.events := by
  induction ds generalizing s with
  | nil => rfl
  | cons d ds ih =>
    simp only [runLoop]
    rcases stepThreshold_shape templates mailOk sub renewal d s with
      ⟨evs, he, _, hne, _, _⟩
    have hs : countLabel L (stepThreshold templates mailOk sub renewal d s).1.events =
        countLabel L s.events := by
      rw [he, countLabel_append, hne L (h d (List.mem_cons_self d ds)), Nat.add_zero]
    split
    · rw [ih _ (fun d' hd' => h d' (List.mem_cons_of_mem d hd')), hs]
    · exact hs

lemma runLoop_count_sent (templates : List String) (mailOk : String → Bool)
    (sub : Subscription) (renewal : Int) (ds : List Nat) (s : RunState) (L : String)
    (h : StepRec.sent L ∈ s.log) :
    countLabel L (runLoop templates mailOk sub renewal ds s).1.events =
      countLabel L s.events := by
  induction ds generalizing s with
  | nil => rfl
  | cons d ds ih =>
    simp only [runLoop]
    rcases stepThreshold_shape templates mailOk sub renewal d s with
      ⟨evs, he, _, hne, _, hsent⟩
    have hs : countLabel L (stepThreshold templates mailOk sub renewal d s).1.events =
        countLabel L s.events := by
      by_cases hdL : runLabel d = L
      · rw [he, countLabel_append, ← hdL, hsent (by rw [hdL]; exact h), Nat.add_zero]
      · rw [he, countLabel_append, hne L hdL, Nat.add_zero]
    have hlog := stepThreshold_log_mono templates mailOk sub renewal d s h
    split
    · rw [ih _ hlog, hs]
    · exact hs

lemma runLoop_count_le (templates : List String) (mailOk : String → Bool)
    (sub : Subscription) (renewal : Int) (ds : List Nat) (s : RunState) (L : String)
    (hpw : List.Pairwise (fun a b => runLabel a ≠ runLabel b) ds) :
    countLabel L (runLoop templates mailOk sub renewal ds s).1.events ≤
      countLabel L s.events + 1 := by
  induction ds generalizing s with
  | nil => exact Nat.le_succ _
  | cons d ds ih =>
    simp only [runLoop]
    rcases stepThreshold_shape templates mailOk sub renewal d s with
      ⟨evs, he, _, hne, hle, _⟩
    rcases List.pairwise_cons.mp hpw with ⟨hhead, htail⟩
    by_cases hdL : runLabel d = L
    · have hrest : ∀ d' ∈ ds, runLabel d' ≠ L := by
        intro d' hd'
        rw [← hdL]
        exact fun hc => hhead d' hd' hc.symm
      have hs : countLabel L (stepThreshold templates mailOk sub renewal d s).1.events ≤
          countLabel L s.events + 1 := by
        rw [he, countLabel_append, ← hdL]
        omega
      split
      · rw [runLoop_count_notin templates mailOk sub renewal ds _ L hrest]
        exact hs
      · exact hs
    · have hs : countLabel L (stepThreshold templates mailOk sub renewal d s).1.events =
          countLabel L s.events := by
        rw [he, countLabel_append, hne L hdL, Nat.add_zero]
      split
      · rw [← hs] at *
        exact ih _ htail
      · dsimp only
        omega

/-! ## Evaluation lemmas for a continuously executing run -/

lemma runLoop_cons (templates : List String) (mailOk : String → Bool)
    (sub : Subscription) (renewal : Int) (d : Nat) (ds : List Nat)
    (s s' : RunState) (b : Bool)
    (h : stepThreshold templates mailOk sub renewal d s = (s', b)) :
    runLoop templates mailOk sub renewal (d :: ds) s =
      if b = true then runLoop templates mailOk sub renewal ds s' else (s', false) := by
  simp only [runLoop, h]

/-- A threshold strictly in the future whose steps are not yet in the log:
the run suspends, resumes at `reminderDate`, and (same calendar day,
resolvable label, successful delivery) sends the reminder. -/
lemma stepThreshold_fresh_ok (templates : List String) (mailOk : String → Bool)
    (sub : Subscription) (renewal : Int) (d : Nat) (s : RunState) (r : Int)
    (hr : renewal - (d : Int) * msPerDay = r)
    (hsl : StepRec.slept (sleepLabel d) ∉ s.log)
    (hst : StepRec.sent (runLabel d) ∉ s.log)
    (hfut : s.now < r)
    (hmail : sub.user.email ≠ "")
    (hL : runLabel d ∈ templates) (hLne : runLabel d ≠ "")
    (hok : mailOk (runLabel d) = true) :
    stepThreshold templates mailOk sub renewal d s =
      ({ now := r
         log := s.log ++ [.slept (sleepLabel d), .sent (runLabel d)]
         events := s.events ++
           [.sleep (sleepLabel d) r,
            .email (runLabel d) sub.user.email r true] },
        true) := by
  unfold stepThreshold
  dsimp only
  rw [hr, if_pos hfut]
  unfold sleepUntilReminder
  rw [if_neg hsl]
  dsimp only
  rw [if_pos rfl]
  unfold triggerReminder
  rw [if_neg (by simp [hst])]
  dsimp only
  rw [hok, sendReminderEmail_ok templates sub.user.email (runLabel d) sub hmail hL hLne]
  simp

/-- Same situation, but the transporter reports failure: one failed attempt
is recorded, the step is not durably completed, and the run is failed. -/
lemma stepThreshold_fresh_fail (templates : List String) (mailOk : String → Bool)
    (sub : Subscription) (renewal : Int) (d : Nat) (s : RunState) (r : Int)
    (hr : renewal - (d : Int) * msPerDay = r)
    (hsl : StepRec.slept (sleepLabel d) ∉ s.log)
    (hst : StepRec.sent (runLabel d) ∉ s.log)
    (hfut : s.now < r)
    (hmail : sub.user.email ≠ "")
    (hL : runLabel d ∈ templates) (hLne : runLabel d ≠ "")
    (hok : mailOk (runLabel d) = false) :
    stepThreshold templates mailOk sub renewal d s =
      ({ now := r
         log := s.log ++ [.slept (sleepLabel d)]
         events := s.events ++
           [.sleep (sleepLabel d) r,
            .email (runLabel d) sub.user.email r false] },
        false) := by
  unfold stepThreshold
  dsimp only
  rw [hr, if_pos hfut]
  unfold sleepUntilReminder
  rw [if_neg hsl]
  dsimp only
  rw [if_pos rfl]
  unfold triggerReminder
  rw [if_neg (by simp [hst])]
  dsimp only
  rw [hok, sendReminderEmail_fail templates sub.user.email (runLabel d) sub hmail hL hLne]
  simp

lemma sleepLabel_7 : sleepLabel 7 = "Reminder 7 days before" := rfl

lemma sleepLabel_5 : sleepLabel 5 = "Reminder 5 days before" := rfl

lemma sleepLabel_3 : sleepLabel 3 = "Reminder 3 days before" := rfl

lemma sleepLabel_1 : sleepLabel 1 = "Reminder 1 days before" := rfl

lemma runLabel_7 : runLabel 7 = "7 days before reminder" := rfl

lemma runLabel_5 : runLabel 5 = "5 days before reminder" := rfl

lemma runLabel_3 : runLabel 3 = "3 days before reminder" := rfl

lemma runLabel_1 : runLabel 1 = "1 days before reminder" := rfl

lemma reminders_eq : reminders = 7 :: [5, 3, 1] := rfl

/-- Unfolding of `sendReminders` on a fresh run whose guards pass: one
store read at `t0`, then the threshold loop. -/
lemma sendReminders_fresh (db : Int → Option Subscription) (subId : String)
    (templates : List String) (mailOk : String → Bool) (t0 : Int)
    (sub : Subscription)
    (hdb : db t0 = some sub) (hact : sub.status = SubStatus.active)
    (hnp : ¬ sub.renewalDate < t0) :
    sendReminders db subId templates mailOk t0 [] =
      runLoop templates mailOk sub sub.renewalDate reminders
        { now := t0, log := [.fetch (some sub)], events := [.read subId t0] } := by
  unfold sendReminders fetchedSub startState getFetched
  simp [hdb, hact, hnp]

/-- Steps 7 and 5 of a fresh continuous run with working delivery for
those labels: both sleeps and both sends happen. -/
lemma runLoop_two_ok (mailOk : String → Bool) (sub : Subscription)
    (t0 : Int) (subId : String)
    (hmail : sub.user.email ≠ "")
    (h7 : mailOk (runLabel 7) = true) (h5 : mailOk (runLabel 5) = true)
    (hstart : t0 < sub.renewalDate - 7 * msPerDay) :
    runLoop defaultTemplates mailOk sub sub.renewalDate reminders
      { now := t0, log := [.fetch (some sub)], events := [.read subId t0] } =
    runLoop defaultTemplates mailOk sub sub.renewalDate [3, 1]
      { now := sub.renewalDate - 5 * msPerDay
        log := [.fetch (some sub), .slept (sleepLabel 7), .sent (runLabel 7),
                .slept (sleepLabel 5), .sent (runLabel 5)]
        events := [.read subId t0,
          .sleep (sleepLabel 7) (sub.renewalDate - 7 * msPerDay),
          .email (runLabel 7) sub.user.email (sub.renewalDate - 7 * msPerDay) true,
          .sleep (sleepLabel 5) (sub.renewalDate - 5 * msPerDay),
          .email (runLabel 5) sub.user.email (sub.renewalDate - 5 * msPerDay) true] } := by
  have hms : msPerDay = 86400000 := rfl
  have e7 := stepThreshold_fresh_ok defaultTemplates mailOk sub sub.renewalDate 7
    { now := t0, log := [.fetch (some sub)], events := [.read subId t0] }
    (sub.renewalDate - 7 * msPerDay) (by push_cast; ring)
    (by simp) (by simp) (by simpa using hstart) hmail
    (by simp [runLabel_7, defaultTemplates]) (by simp [runLabel_7]) h7
  rw [reminders_eq, runLoop_cons _ _ _ _ _ _ _ _ _ e7, if_pos rfl]
  dsimp only [List.cons_append, List.nil_append]
  have e5 := stepThreshold_fresh_ok defaultTemplates mailOk sub sub.renewalDate 5
    { now := sub.renewalDate - 7 * msPerDay
      log := [.fetch (some sub), .slept (sleepLabel 7), .sent (runLabel 7)]
      events := [.read subId t0,
        .sleep (sleepLabel 7) (sub.renewalDate - 7 * msPerDay),
        .email (runLabel 7) sub.user.email (sub.renewalDate - 7 * msPerDay) true] }
    (sub.renewalDate - 5 * msPerDay) (by push_cast; ring)
    (by simp [sleepLabel_5, sleepLabel_7, runLabel_7])
    (by simp [runLabel_5, sleepLabel_7, runLabel_7])
    (by simp; omega) hmail
    (by simp [runLabel_5, defaultTemplates]) (by simp [runLabel_5]) h5
  rw [runLoop_cons _ _ _ _ _ _ _ _ _ e5, if_pos rfl]
  dsimp only [List.cons_append, List.nil_append]

lemma startState_emailEvents (db : Int → Option Subscription) (subId : String)
    (t0 : Int) (log0 : List StepRec) :
    emailEvents (startState db subId t0 log0).events = [] := by
  unfold startState
  rcases getFetched log0 with _ | v <;> rfl

lemma startState_sleepEvents (db : Int → Option Subscription) (subId : String)
    (t0 : Int) (log0 : List StepRec) :
    sleepEvents (startState db subId t0 log0).events = [] := by
  unfold startState
  rcases getFetched log0 with _ | v <;> rfl

lemma startState_countLabel (db : Int → Option Subscription) (subId : String)
    (t0 : Int) (log0 : List StepRec) (L : String) :
    countLabel L (startState db subId t0 log0).events = 0 :=
  countLabel_of_emailEvents_nil L (startState_emailEvents db subId t0 log0)

lemma startState_log_mono (db : Int → Option Subscription) (subId : String)
    (t0 : Int) (log0 : List StepRec) {x : StepRec} (h : x ∈ log0) :
    x ∈ (startState db subId t0 log0).log := by
  unfold startState
  rcases getFetched log0 with _ | v
  · exact List.mem_append_left _ h
  · exact h

/-- Every branch of `sendReminders` either stops at the start state with a
successful empty completion, or enters the threshold loop from it. -/
lemma sendReminders_branches (db : Int → Option Subscription) (subId : String)
    (templates : List String) (mailOk : String → Bool)
    (t0 : Int) (log0 : List StepRec) :
    sendReminders db subId templates mailOk t0 log0 =
      (startState db subId t0 log0, true) ∨
    ∃ sub, fetchedSub db t0 log0 = some sub ∧
      sendReminders db subId templates mailOk t0 log0 =
        runLoop templates mailOk sub sub.renewalDate reminders
          (startState db subId t0 log0) := by
  unfold sendReminders
  rcases hf : fetchedSub db t0 log0 with _ | sub
  · exact Or.inl rfl
  · dsimp only
    by_cases hs : sub.status ≠ SubStatus.active
    · rw [if_pos hs]
      exact Or.inl rfl
    · rw [if_neg hs]
      by_cases hp : sub.renewalDate < t0
      · rw [if_pos hp]
        exact Or.inl rfl
      · rw [if_neg hp]
        exact Or.inr ⟨sub, rfl, rfl⟩

/-! ## Claims -/

/-- C1: for every subscription with status `"active"` and renewal instant
`D`, if the `sendReminders` workflow runs continuously from an instant
strictly before `D − 7` days (with the spec's template labels and working
mail delivery), the full event trace is exactly one store read followed,
for each threshold `n` in `[7, 5, 3, 1]` in this strictly descending
order, by one suspension until `D − n` days and one reminder email labeled
with that threshold sent at the instant `D − n` days — hence exactly 4
emails, one per threshold, never more than once each, and (third
conjunct) the `n`-day email's instant lies on the calendar day
`dayOf D − n`. -/
theorem C1_active_run_sends_four_reminders_in_order
    (db : Int → Option Subscription) (subId : String)
    (sub : Subscription) (t0 : Int)
    (hdb : db t0 = some sub)
    (hact : sub.status = SubStatus.active)
    (hmail : sub.user.email ≠ "")
    (hstart : t0 < sub.renewalDate - 7 * msPerDay) :
    (sendReminders db subId defaultTemplates (fun _ => true) t0 []).1.events =
      [.read subId t0,
       .sleep (sleepLabel 7) (sub.renewalDate - 7 * msPerDay),
       .email (runLabel 7) sub.user.email (sub.renewalDate - 7 * msPerDay) true,
       .sleep (sleepLabel 5) (sub.renewalDate - 5 * msPerDay),
       .email (runLabel 5) sub.user.email (sub.renewalDate - 5 * msPerDay) true,
       .sleep (sleepLabel 3) (sub.renewalDate - 3 * msPerDay),
       .email (runLabel 3) sub.user.email (sub.renewalDate - 3 * msPerDay) true,
       .sleep (sleepLabel 1) (sub.renewalDate - 1 * msPerDay),
       .email (runLabel 1) sub.user.email (sub.renewalDate - 1 * msPerDay) true] ∧
    (sendReminders db subId defaultTemplates (fun _ => true) t0 []).2 = true ∧
    (∀ n : Nat, dayOf (sub.renewalDate - n * msPerDay) = dayOf sub.renewalDate - n) := by
  have hms : msPerDay = 86400000 := rfl
  have hnp : ¬ sub.renewalDate < t0 := by omega
  have hrun : sendReminders db subId defaultTemplates (fun _ => true) t0 [] =
      ({ now := sub.renewalDate - 1 * msPerDay
         log := [.fetch (some sub), .slept (sleepLabel 7), .sent (runLabel 7),
                 .slept (sleepLabel 5), .sent (runLabel 5),
                 .slept (sleepLabel 3), .sent (runLabel 3),
                 .slept (sleepLabel 1), .sent (runLabel 1)]
         events := [.read subId t0,
            .sleep (sleepLabel 7) (sub.renewalDate - 7 * msPerDay),
            .email (runLabel 7) sub.user.email (sub.renewalDate - 7 * msPerDay) true,
            .sleep (sleepLabel 5) (sub.renewalDate - 5 * msPerDay),
            .email (runLabel 5) sub.user.email (sub.renewalDate - 5 * msPerDay) true,
            .sleep (sleepLabel 3) (sub.renewalDate - 3 * msPerDay),
            .email (runLabel 3) sub.user.email (sub.renewalDate - 3 * msPerDay) true,
            .sleep (sleepLabel 1) (sub.renewalDate - 1 * msPerDay),
            .email (runLabel 1) sub.user.email (sub.renewalDate - 1 * msPerDay) true] },
        true) := by
    rw [sendReminders_fresh db subId defaultTemplates (fun _ => true) t0 sub hdb hact hnp]
    rw [runLoop_two_ok (fun _ => true) sub t0 subId hmail rfl rfl hstart]
    have e3 := stepThreshold_fresh_ok defaultTemplates (fun _ => true) sub sub.renewalDate 3
      { now := sub.renewalDate - 5 * msPerDay
        log := [.fetch (some sub), .slept (sleepLabel 7), .sent (runLabel 7),
                .slept (sleepLabel 5), .sent (runLabel 5)]
        events := [.read subId t0,
          .sleep (sleepLabel 7) (sub.renewalDate - 7 * msPerDay),
          .email (runLabel 7) sub.user.email (sub.renewalDate - 7 * msPerDay) true,
          .sleep (sleepLabel 5) (sub.renewalDate - 5 * msPerDay),
          .email (runLabel 5) sub.user.email (sub.renewalDate - 5 * msPerDay) true] }
      (sub.renewalDate - 3 * msPerDay) (by push_cast; ring)
      (by simp [sleepLabel_3, sleepLabel_7, sleepLabel_5, runLabel_7, runLabel_5])
      (by simp [runLabel_3, sleepLabel_7, sleepLabel_5, runLabel_7, runLabel_5])
      (by simp; omega) hmail
      (by simp [runLabel_3, defaultTemplates]) (by simp [runLabel_3]) rfl
    rw [runLoop_cons _ _ _ _ _ _ _ _ _ e3, if_pos rfl]
    dsimp only [List.cons_append, List.nil_append]
    have e1 := stepThreshold_fresh_ok defaultTemplates (fun _ => true) sub sub.renewalDate 1
      { now := sub.renewalDate - 3 * msPerDay
        log := [.fetch (some sub), .slept (sleepLabel 7), .sent (runLabel 7),
                .slept (sleepLabel 5), .sent (runLabel 5),
                .slept (sleepLabel 3), .sent (runLabel 3)]
        events := [.read subId t0,
          .sleep (sleepLabel 7) (sub.renewalDate - 7 * msPerDay),
          .email (runLabel 7) sub.user.email (sub.renewalDate - 7 * msPerDay) true,
          .sleep (sleepLabel 5) (sub.renewalDate - 5 * msPerDay),
          .email (runLabel 5) sub.user.email (sub.renewalDate - 5 * msPerDay) true,
          .sleep (sleepLabel 3) (sub.renewalDate - 3 * msPerDay),
          .email (runLabel 3) sub.user.email (sub.renewalDate - 3 * msPerDay) true] }
      (sub.renewalDate - 1 * msPerDay) (by push_cast; ring)
      (by simp [sleepLabel_1, sleepLabel_7, sleepLabel_5, sleepLabel_3,
            runLabel_7, runLabel_5, runLabel_3])
      (by simp [runLabel_1, sleepLabel_7, sleepLabel_5, sleepLabel_3,
            runLabel_7, runLabel_5, runLabel_3])
      (by simp; omega) hmail
      (by simp [runLabel_1, defaultTemplates]) (by simp [runLabel_1]) rfl
    rw [runLoop_cons _ _ _ _ _ _ _ _ _ e1, if_pos rfl]
    dsimp only [runLoop, List.cons_append, List.nil_append]
  refine ⟨?_, ?_, fun n => dayOf_sub_days sub.renewalDate n⟩
  · rw [hrun]
  · rw [hrun]

/-- C7: transporter failure on the 3-day reminder of an otherwise healthy
continuous run: the 7- and 5-day reminders were sent and stay sent (their
events remain, once each), the 3-day step records exactly one failed
attempt and — `retries: 0` — is not retried, the run is marked failed,
and the 1-day threshold is never reached. -/
theorem C7_mail_failure_fails_step_without_undoing_earlier
    (db : Int → Option Subscription) (subId : String)
    (sub : Subscription) (t0 : Int) (mailOk : String → Bool)
    (hdb : db t0 = some sub)
    (hact : sub.status = SubStatus.active)
    (hmail : sub.user.email ≠ "")
    (hstart : t0 < sub.renewalDate - 7 * msPerDay)
    (h7 : mailOk (runLabel 7) = true) (h5 : mailOk (runLabel 5) = true)
    (h3 : mailOk (runLabel 3) = false) :
    (sendReminders db subId defaultTemplates mailOk t0 []).1.events =
      [.read subId t0,
       .sleep (sleepLabel 7) (sub.renewalDate - 7 * msPerDay),
       .email (runLabel 7) sub.user.email (sub.renewalDate - 7 * msPerDay) true,
       .sleep (sleepLabel 5) (sub.renewalDate - 5 * msPerDay),
       .email (runLabel 5) sub.user.email (sub.renewalDate - 5 * msPerDay) true,
       .sleep (sleepLabel 3) (sub.renewalDate - 3 * msPerDay),
       .email (runLabel 3) sub.user.email (sub.renewalDate - 3 * msPerDay) false] ∧
    (sendReminders db subId defaultTemplates mailOk t0 []).2 = false := by
  have hms : msPerDay = 86400000 := rfl
  have hnp : ¬ sub.renewalDate < t0 := by omega
  have hrun : sendReminders db subId defaultTemplates mailOk t0 [] =
      ({ now := sub.renewalDate - 3 * msPerDay
         log := [.fetch (some sub), .slept (sleepLabel 7), .sent (runLabel 7),
                 .slept (sleepLabel 5), .sent (runLabel 5),
                 .slept (sleepLabel 3)]
         events := [.read subId t0,
            .sleep (sleepLabel 7) (sub.renewalDate - 7 * msPerDay),
            .email (runLabel 7) sub.user.email (sub.renewalDate - 7 * msPerDay) true,
            .sleep (sleepLabel 5) (sub.renewalDate - 5 * msPerDay),
            .email (runLabel 5) sub.user.email (sub.renewalDate - 5 * msPerDay) true,
            .sleep (sleepLabel 3) (sub.renewalDate - 3 * msPerDay),
            .email (runLabel 3) sub.user.email (sub.renewalDate - 3 * msPerDay) false] },
        false) := by
    rw [sendReminders_fresh db subId defaultTemplates mailOk t0 sub hdb hact hnp]
    rw [runLoop_two_ok mailOk sub t0 subId hmail h7 h5 hstart]
    have e3 := stepThreshold_fresh_fail defaultTemplates mailOk sub sub.renewalDate 3
      { now := sub.renewalDate - 5 * msPerDay
        log := [.fetch (some sub), .slept (sleepLabel 7), .sent (runLabel 7),
                .slept (sleepLabel 5), .sent (runLabel 5)]
        events := [.read subId t0,
          .sleep (sleepLabel 7) (sub.renewalDate - 7 * msPerDay),
          .email (runLabel 7) sub.user.email (sub.renewalDate - 7 * msPerDay) true,
          .sleep (sleepLabel 5) (sub.renewalDate - 5 * msPerDay),
          .email (runLabel 5) sub.user.email (sub.renewalDate - 5 * msPerDay) true] }
      (sub.renewalDate - 3 * msPerDay) (by push_cast; ring)
      (by simp [sleepLabel_3, sleepLabel_7, sleepLabel_5, runLabel_7, runLabel_5])
      (by simp [runLabel_3, sleepLabel_7, sleepLabel_5, runLabel_7, runLabel_5])
      (by simp; omega) hmail
      (by simp [runLabel_3, defaultTemplates]) (by simp [runLabel_3]) h3
    rw [runLoop_cons _ _ _ _ _ _ _ _ _ e3]
    simp only [Bool.false_eq_true, if_false]
    dsimp only [List.cons_append, List.nil_append]
  exact ⟨by rw [hrun], by rw [hrun]⟩

/-- C2: over the lifetime of one workflow run — any carried-in durable step
log, start instant, store contents, template list and transporter behavior —
at most one mail per threshold label is ever handed to the transporter; and
if a threshold's computation step is already recorded as complete
(replay/resume after completion), no mail with that label is sent at all. -/
theorem C2_step_memoization_at_most_one_send
    (db : Int → Option Subscription) (subId : String)
    (templates : List String) (mailOk : String → Bool)
    (t0 : Int) (log0 : List StepRec) (d : Nat) (_hd : d ∈ reminders) :
    countLabel (runLabel d)
      (sendReminders db subId templates mailOk t0 log0).1.events ≤ 1 ∧
    (StepRec.sent (runLabel d) ∈ log0 →
      countLabel (runLabel d)
        (sendReminders db subId templates mailOk t0 log0).1.events = 0) := by
  have hpw : List.Pairwise (fun a b => runLabel a ≠ runLabel b) reminders := by
    simp [reminders, runLabel_7, runLabel_5, runLabel_3, runLabel_1]
  have h0 := startState_countLabel db subId t0 log0 (runLabel d)
  rcases sendReminders_branches db subId templates mailOk t0 log0 with h | ⟨sub, _, h⟩
  · rw [h]
    constructor
    · simp [h0]
    · intro _
      exact h0
  · rw [h]
    constructor
    · have := runLoop_count_le templates mailOk sub sub.renewalDate reminders
        (startState db subId t0 log0) (runLabel d) hpw
      omega
    · intro hsent
      rw [runLoop_count_sent templates mailOk sub sub.renewalDate reminders
        (startState db subId t0 log0) (runLabel d)
        (startState_log_mono db subId t0 log0 hsent)]
      exact h0

/-- C4: if the fetched subscription is absent or not `"active"`, the run
stops at once — no reminder email, no suspension — and completes
successfully (`true`), not as a failure. -/
theorem C4_missing_or_inactive_silent_noop
    (db : Int → Option Subscription) (subId : String)
    (templates : List String) (mailOk : String → Bool)
    (t0 : Int) (log0 : List StepRec)
    (h : ∀ sub, fetchedSub db t0 log0 = some sub → sub.status ≠ SubStatus.active) :
    emailEvents (sendReminders db subId templates mailOk t0 log0).1.events = [] ∧
    sleepEvents (sendReminders db subId templates mailOk t0 log0).1.events = [] ∧
    (sendReminders db subId templates mailOk t0 log0).2 = true := by
  unfold sendReminders
  rcases hf : fetchedSub db t0 log0 with _ | sub
  · exact ⟨startState_emailEvents db subId t0 log0,
      startState_sleepEvents db subId t0 log0, rfl⟩
  · dsimp only
    rw [if_pos (h sub hf)]
    exact ⟨startState_emailEvents db subId t0 log0,
      startState_sleepEvents db subId t0 log0, rfl⟩

/-- C5: if the fetched subscription's renewal instant already lies strictly
in the past at workflow start, the run stops with zero reminder emails and
completes successfully. -/
theorem C5_past_renewal_sends_nothing
    (db : Int → Option Subscription) (subId : String)
    (templates : List String) (mailOk : String → Bool)
    (t0 : Int) (log0 : List StepRec) (sub : Subscription)
    (hfetch : fetchedSub db t0 log0 = some sub)
    (hpast : sub.renewalDate < t0) :
    emailEvents (sendReminders db subId templates mailOk t0 log0).1.events = [] ∧
    (sendReminders db subId templates mailOk t0 log0).2 = true := by
  unfold sendReminders
  rw [hfetch]
  dsimp only
  by_cases hs : sub.status ≠ SubStatus.active
  · rw [if_pos hs]
    exact ⟨startState_emailEvents db subId t0 log0, rfl⟩
  · rw [if_neg hs, if_pos hpast]
    exact ⟨startState_emailEvents db subId t0 log0, rfl⟩

/-- C8: a workflow run touches the persistence store exactly once, with a
single read (resolving the owning user) issued at the start instant `t0`,
and never writes to it: the store-access events of any fresh run are
exactly `[read subId t0]`. -/
theorem C8_single_read_at_start_no_writes
    (db : Int → Option Subscription) (subId : String)
    (templates : List String) (mailOk : String → Bool) (t0 : Int) :
    storeEvents (sendReminders db subId templates mailOk t0 []).1.events =
      [Event.read subId t0] := by
  have hss : startState db subId t0 [] =
      { now := t0, log := [.fetch (db t0)], events := [.read subId t0] } := rfl
  have h0 : storeEvents (startState db subId t0 []).events = [Event.read subId t0] := by
    rw [hss]
    rfl
  rcases sendReminders_branches db subId templates mailOk t0 [] with h | ⟨sub, _, h⟩
  · rw [h]
    exact h0
  · rw [h, runLoop_store]
    exact h0

/-- C3: behavior of one loop iteration for a threshold `d` of the policy
list whose steps are not yet in the durable log (with a resolvable label
and working delivery).  Writing `r` for
`reminderDate = renewalDate − d days`:
* the run suspends (recording a sleep event until `r`) exactly when `r` is
  strictly in the future, and the post-step instant is `r` in that case and
  unchanged otherwise;
* exactly one reminder email labeled with this threshold is sent, at the
  post-suspension instant, if and only if that instant lies on the same
  calendar day as `r`;
* the step reports success either way (the loop proceeds to the next
  threshold), and if the current calendar day has already passed `r`'s
  calendar day, no email at all is sent. -/
theorem C3_threshold_iteration_suspend_send_skip
    (templates : List String) (mailOk : String → Bool)
    (sub : Subscription) (renewal : Int) (d : Nat) (s : RunState)
    (hd : d ∈ reminders)
    (hmem : runLabel d ∈ templates)
    (hmail : sub.user.email ≠ "")
    (hok : mailOk (runLabel d) = true)
    (hsl : StepRec.slept (sleepLabel d) ∉ s.log)
    (hst : StepRec.sent (runLabel d) ∉ s.log) :
    sleepEvents (stepThreshold templates mailOk sub renewal d s).1.events =
      sleepEvents s.events ++
        (if s.now < renewal - (d : Int) * msPerDay
          then [Event.sleep (sleepLabel d) (renewal - (d : Int) * msPerDay)]
          else []) ∧
    (stepThreshold templates mailOk sub renewal d s).1.now =
      (if s.now < renewal - (d : Int) * msPerDay
        then renewal - (d : Int) * msPerDay else s.now) ∧
    emailEvents (stepThreshold templates mailOk sub renewal d s).1.events =
      emailEvents s.events ++
        (if dayOf (stepThreshold templates mailOk sub renewal d s).1.now =
            dayOf (renewal - (d : Int) * msPerDay)
          then [Event.email (runLabel d) sub.user.email
                  (stepThreshold templates mailOk sub renewal d s).1.now true]
          else []) ∧
    (stepThreshold templates mailOk sub renewal d s).2 = true ∧
    (dayOf (renewal - (d : Int) * msPerDay) < dayOf s.now →
      emailEvents (stepThreshold templates mailOk sub renewal d s).1.events =
        emailEvents s.events) := by
  have hLne : runLabel d ≠ "" := by
    have hd' : d = 7 ∨ d = 5 ∨ d = 3 ∨ d = 1 := by simpa [reminders] using hd
    rcases hd' with rfl | rfl | rfl | rfl <;>
      simp [runLabel_7, runLabel_5, runLabel_3, runLabel_1]
  by_cases h1 : s.now < renewal - (d : Int) * msPerDay
  · -- future: suspend, resume at the reminder instant, send (same day).
    have hstep := stepThreshold_fresh_ok templates mailOk sub renewal d s
      (renewal - (d : Int) * msPerDay) rfl hsl hst h1 hmail hmem hLne hok
    rw [hstep]
    have hnolater : ¬ dayOf (renewal - (d : Int) * msPerDay) < dayOf s.now :=
      not_lt.mpr (dayOf_mono h1.le)
    refine ⟨?_, by simp [h1], ?_, rfl, fun hlate => absurd hlate hnolater⟩
    · rw [if_pos h1]
      simp [sleepEvents_append, sleepEvents, isSleepEv]
    · dsimp only
      rw [if_pos rfl]
      simp [emailEvents_append, emailEvents, isEmailEv]
  · -- not in the future: no suspension; send iff same calendar day.
    have hs1 : (if s.now < renewal - (d : Int) * msPerDay
        then sleepUntilReminder d (renewal - (d : Int) * msPerDay) s else s) = s :=
      if_neg h1
    by_cases h2 : dayOf s.now = dayOf (renewal - (d : Int) * msPerDay)
    · have hsend : stepThreshold templates mailOk sub renewal d s =
          ({ s with
              log := s.log ++ [.sent (runLabel d)]
              events := s.events ++
                [.email (runLabel d) sub.user.email s.now true] }, true) := by
        unfold stepThreshold
        dsimp only
        rw [hs1, if_pos h2]
        unfold triggerReminder
        rw [if_neg hst]
        dsimp only
        rw [hok, sendReminderEmail_ok templates sub.user.email (runLabel d) sub
          hmail hmem hLne]
        simp
      rw [hsend]
      have hnolater : ¬ dayOf (renewal - (d : Int) * msPerDay) < dayOf s.now := by
        omega
      refine ⟨?_, by simp [h1], ?_, rfl, fun hlate => absurd hlate hnolater⟩
      · rw [if_neg h1]
        simp [sleepEvents_append, sleepEvents, isSleepEv]
      · dsimp only
        rw [if_pos h2]
        simp [emailEvents_append, emailEvents, isEmailEv]
    · have hskip : stepThreshold templates mailOk sub renewal d s = (s, true) := by
        unfold stepThreshold
        dsimp only
        rw [hs1, if_neg h2]
      rw [hskip]
      refine ⟨?_, by simp [h1], ?_, rfl, fun _ => by simp⟩
      · rw [if_neg h1]
        simp
      · dsimp only
        rw [if_neg h2]
        simp

/-- C6 is false of the code: the subscription is read from the store once,
at workflow start, and every resumption replays that memoized snapshot.  In
this concrete run the store reports the subscription cancelled at every
instant after start, the run resumes at day 3 (after that cancellation) and
still sends the 7-days-before reminder, and the whole run performs exactly
one store read, at start — so status is not re-read at resumption points. -/
theorem C6_counterexample_resume_ignores_cancellation :
    cancelledMidRunStore (3 * msPerDay) = some sampleCancelled ∧
    sampleCancelled.status = SubStatus.cancelled ∧
    Event.email (runLabel 7) "u@x.com" (3 * msPerDay) true ∈
      (sendReminders cancelledMidRunStore "s1" defaultTemplates
        (fun _ => true) 0 []).1.events ∧
    storeEvents (sendReminders cancelledMidRunStore "s1" defaultTemplates
        (fun _ => true) 0 []).1.events = [Event.read "s1" 0] := by
  refine ⟨by decide, by decide, by decide, by decide⟩

/-- C6 amended: the scheduler reads `status` and `renewalDate` only once,
at workflow start; resumption points replay the memoized fetch, so the run
is entirely determined by the store's contents at the start instant and
external changes (e.g. cancellation) made after start are never observed. -/
theorem C6_amended_single_fetch_determines_run
    (db db' : Int → Option Subscription) (subId : String)
    (templates : List String) (mailOk : String → Bool) (t0 : Int)
    (h : db t0 = db' t0) :
    sendReminders db subId templates mailOk t0 [] =
      sendReminders db' subId templates mailOk t0 [] := by
  unfold sendReminders fetchedSub startState getFetched
  simp [h]

/-- C9: the `pre("save")` hook establishes: a missing `renewalDate` becomes
`startDate` plus the frequency period (daily 1, weekly 7, monthly 30,
yearly 365 days), an existing one is kept; and whenever the resulting
`renewalDate` lies strictly before the current instant the status is forced
to `"expired"` — so no document leaves `save` active with a past
`renewalDate`. -/
theorem C9_presave_renewal_and_expiry
    (doc : SubscriptionDoc) (now : Int) :
    ((doc.renewalDate = none →
        (preSave doc now).renewalDate =
          some (doc.startDate + renewalPeriods doc.frequency * msPerDay)) ∧
     (∀ r0, doc.renewalDate = some r0 → (preSave doc now).renewalDate = some r0)) ∧
    (∀ r0, (preSave doc now).renewalDate = some r0 → r0 < now →
      (preSave doc now).status = SubStatus.expired) ∧
    ¬ ((preSave doc now).status = SubStatus.active ∧
       ∀ r0, (preSave doc now).renewalDate = some r0 → r0 < now) := by
  rcases hrd : doc.renewalDate with _ | r0
  · by_cases h : doc.startDate + renewalPeriods doc.frequency * msPerDay < now
    · simp [preSave, hrd, h]
    · simp [preSave, hrd, h]
  · by_cases h : r0 < now
    · simp [preSave, hrd, h]
    · simp [preSave, hrd, h]

/-- C10: `sendReminderEmail` throws `"Missing required fields"` whenever
the recipient, the type label or the subscription argument is missing, and
`"Invalid template type"` when (all arguments present) the label matches no
email template — in both cases with no mail handed to the transporter. -/
theorem C10_sendReminderEmail_validation
    (templates : List String) (deliverOk : Bool)
    (toA ty : Option String) (subscription : Option Subscription) :
    ((toA = none ∨ ty = none ∨ subscription = none) →
      sendReminderEmail templates deliverOk toA ty subscription =
        ([], some MailError.missingFields)) ∧
    (truthyB toA = true → truthyB ty = true → subscription ≠ none →
      templates.find? (fun l => l == ty.getD "") = none →
      sendReminderEmail templates deliverOk toA ty subscription =
        ([], some MailError.invalidTemplate)) := by
  constructor
  · rintro (rfl | rfl | rfl) <;> simp [sendReminderEmail, truthyB]
  · intro hto hty hsub hfind
    unfold sendReminderEmail
    rw [hto, hty]
    have hn : subscription.isNone = false := by
      rcases subscription with _ | v
      · exact absurd rfl hsub
      · rfl
    rw [hn]
    simp [hfind]

/-! ## Witnesses -/

theorem C1_witness :
    (sendReminders (fun _ => some sampleSub) "s1" defaultTemplates
        (fun _ => true) 0 []).1.events =
      [.read "s1" 0,
       .sleep (sleepLabel 7) (sampleSub.renewalDate - 7 * msPerDay),
       .email (runLabel 7) sampleSub.user.email
         (sampleSub.renewalDate - 7 * msPerDay) true,
       .sleep (sleepLabel 5) (sampleSub.renewalDate - 5 * msPerDay),
       .email (runLabel 5) sampleSub.user.email
         (sampleSub.renewalDate - 5 * msPerDay) true,
       .sleep (sleepLabel 3) (sampleSub.renewalDate - 3 * msPerDay),
       .email (runLabel 3) sampleSub.user.email
         (sampleSub.renewalDate - 3 * msPerDay) true,
       .sleep (sleepLabel 1) (sampleSub.renewalDate - 1 * msPerDay),
       .email (runLabel 1) sampleSub.user.email
         (sampleSub.renewalDate - 1 * msPerDay) true] ∧
    (sendReminders (fun _ => some sampleSub) "s1" defaultTemplates
        (fun _ => true) 0 []).2 = true ∧
    (∀ n : Nat, dayOf (sampleSub.renewalDate - n * msPerDay) =
      dayOf sampleSub.renewalDate - n) :=
  C1_active_run_sends_four_reminders_in_order (fun _ => some sampleSub) "s1"
    sampleSub 0 rfl rfl (by decide) (by decide)

theorem C2_witness :
    countLabel (runLabel 7)
      (sendReminders (fun _ => some sampleSub) "s1" defaultTemplates
        (fun _ => true) 0 []).1.events ≤ 1 ∧
    (StepRec.sent (runLabel 7) ∈ ([] : List StepRec) →
      countLabel (runLabel 7)
        (sendReminders (fun _ => some sampleSub) "s1" defaultTemplates
          (fun _ => true) 0 []).1.events = 0) :=
  C2_step_memoization_at_most_one_send (fun _ => some sampleSub) "s1"
    defaultTemplates (fun _ => true) 0 [] 7 (by decide)

theorem C3_witness :
    (stepThreshold defaultTemplates (fun _ => true) sampleSub (10 * msPerDay) 7
      { now := 0, log := [], events := [] }).2 = true :=
  (C3_threshold_iteration_suspend_send_skip defaultTemplates (fun _ => true)
    sampleSub (10 * msPerDay) 7 { now := 0, log := [], events := [] }
    (by decide) (by decide) (by decide) rfl (by decide) (by decide)).2.2.2.1

theorem C4_witness :
    emailEvents (sendReminders (fun _ => some sampleCancelled) "s1"
      defaultTemplates (fun _ => true) 0 []).1.events = [] ∧
    sleepEvents (sendReminders (fun _ => some sampleCancelled) "s1"
      defaultTemplates (fun _ => true) 0 []).1.events = [] ∧
    (sendReminders (fun _ => some sampleCancelled) "s1"
      defaultTemplates (fun _ => true) 0 []).2 = true :=
  C4_missing_or_inactive_silent_noop (fun _ => some sampleCancelled) "s1"
    defaultTemplates (fun _ => true) 0 []
    (fun sub h => by
      injection h with h'
      rw [← h']
      decide)

theorem C5_witness :
    emailEvents (sendReminders (fun _ => some expiredSub) "s1"
      defaultTemplates (fun _ => true) 0 []).1.events = [] ∧
    (sendReminders (fun _ => some expiredSub) "s1"
      defaultTemplates (fun _ => true) 0 []).2 = true :=
  C5_past_renewal_sends_nothing (fun _ => some expiredSub) "s1"
    defaultTemplates (fun _ => true) 0 [] expiredSub rfl (by decide)

theorem C6_amended_witness :
    sendReminders (fun _ => some sampleSub) "s1" defaultTemplates
        (fun _ => true) 0 [] =
      sendReminders (fun t => if t ≤ 0 then some sampleSub else none) "s1"
        defaultTemplates (fun _ => true) 0 [] :=
  C6_amended_single_fetch_determines_run (fun _ => some sampleSub)
    (fun t => if t ≤ 0 then some sampleSub else none) "s1" defaultTemplates
    (fun _ => true) 0 rfl

theorem C7_witness :
    (sendReminders (fun _ => some sampleSub) "s1" defaultTemplates
      (fun l => !(l == runLabel 3)) 0 []).2 = false :=
  (C7_mail_failure_fails_step_without_undoing_earlier
    (fun _ => some sampleSub) "s1" sampleSub 0 (fun l => !(l == runLabel 3))
    rfl rfl (by decide) (by decide) (by decide) (by decide) (by decide)).2

theorem C9_witness :
    (preSave
      { frequency := Frequency.monthly, status := SubStatus.active,
        startDate := 0, renewalDate := none } (100 * msPerDay)).status =
      SubStatus.expired :=
  (C9_presave_renewal_and_expiry
    { frequency := Frequency.monthly, status := SubStatus.active,
      startDate := 0, renewalDate := none } (100 * msPerDay)).2.1
    (30 * msPerDay) (by decide) (by decide)

theorem C10_witness :
    sendReminderEmail defaultTemplates true none (some "x") (some sampleSub) =
      ([], some MailError.missingFields) ∧
    sendReminderEmail defaultTemplates true (some "a@b.c")
        (some "no such template") (some sampleSub) =
      ([], some MailError.invalidTemplate) :=
  ⟨(C10_sendReminderEmail_validation defaultTemplates true none (some "x")
      (some sampleSub)).1 (Or.inl rfl),
   (C10_sendReminderEmail_validation defaultTemplates true (some "a@b.c")
      (some "no such template") (some sampleSub)).2
      (by decide) (by decide) (by decide) (by decide)⟩

end SubTracker
